import Mathlib

/-!
A verification development for the pseudo-terminal session bridge of the
`steppe` application (`src/src-tauri/src/lib.rs`).

Embedding conventions:

* A Rust `String` / `&str` is modelled by the list of its UTF-8 bytes
  (`List Nat`, every entry < 256); `str::len()` is the byte length, which
  coincides with `List.length` under this model.
* The `BufReader` wrapping the PTY master reader is modelled by
  `ReaderState`: `buf` is the internal buffer (bytes fetched but not yet
  consumed) and `avail` the bytes currently available from the underlying
  PTY reader that have not been pulled into the buffer yet.
  `BufReader::fill_buf` returns the internal buffer, fetching from the
  underlying reader only when the buffer is empty; `BufReader::consume n`
  drops `n` bytes from the front of the buffer.
* External failure conditions (an I/O error from `fill_buf`, a failed
  `write!`, a failed `resize`, a failed `spawn_command`, the `$SHELL`
  environment variable) are passed in explicitly as booleans / options,
  since they are decided by the OS, not by this code.
* Rust `Result<T, E>` is `Except E T`; `Result<Option<String>, ()>` is
  `Except Unit (Option (List Nat))`.
-/

/-- A UTF-8 continuation byte: `0x80 ≤ b ≤ 0xBF`. -/
def isCont (b : Nat) : Bool := 0x80 ≤ b && b ≤ 0xBF

/-- Validity of a byte list as UTF-8, as checked by Rust's
`std::str::from_utf8` (RFC 3629: overlong encodings, surrogate code
points and values above U+10FFFF are rejected). -/
def utf8Valid : List Nat → Bool
  | [] => true
  | b :: rest =>
    if b ≤ 0x7F then utf8Valid rest
    else if 0xC2 ≤ b && b ≤ 0xDF then
      match rest with
      | b2 :: rest2 => isCont b2 && utf8Valid rest2
      | [] => false
    else if b == 0xE0 then
      match rest with
      | b2 :: b3 :: rest3 => (0xA0 ≤ b2 && b2 ≤ 0xBF) && isCont b3 && utf8Valid rest3
      | _ => false
    else if (0xE1 ≤ b && b ≤ 0xEC) || b == 0xEE || b == 0xEF then
      match rest with
      | b2 :: b3 :: rest3 => isCont b2 && isCont b3 && utf8Valid rest3
      | _ => false
    else if b == 0xED then
      match rest with
      | b2 :: b3 :: rest3 => (0x80 ≤ b2 && b2 ≤ 0x9F) && isCont b3 && utf8Valid rest3
      | _ => false
    else if b == 0xF0 then
      match rest with
      | b2 :: b3 :: b4 :: rest4 =>
          (0x90 ≤ b2 && b2 ≤ 0xBF) && isCont b3 && isCont b4 && utf8Valid rest4
      | _ => false
    else if 0xF1 ≤ b && b ≤ 0xF3 then
      match rest with
      | b2 :: b3 :: b4 :: rest4 =>
          isCont b2 && isCont b3 && isCont b4 && utf8Valid rest4
      | _ => false
    else if b == 0xF4 then
      match rest with
      | b2 :: b3 :: b4 :: rest4 =>
          (0x80 ≤ b2 && b2 ≤ 0x8F) && isCont b3 && isCont b4 && utf8Valid rest4
      | _ => false
    else false

/-- State of the `BufReader<Box<dyn Read + Send>>` guarding the PTY
master's output: `buf` is the internal buffer, `avail` the bytes the
underlying reader would deliver on the next fetch. -/
structure ReaderState where
  buf : List Nat
  avail : List Nat
deriving Repr, DecidableEq

/-- `BufReader::fill_buf` as a total function on the bytes it ends up
holding: a non-empty internal buffer is returned as is (no fetch
happens); an empty buffer triggers the underlying read, and `avail` —
the bytes that read delivers once it returns — moves into the buffer.
The slice `fill_buf` returns is read off as `(fill_buf s).buf`. Beware
that the underlying PTY reader is a blocking handle: in the state where
the buffer is empty and nothing is available the real call does not
return at all (it blocks inside the read; EOF is unreachable because
`AppState` keeps the PTY slave open for the whole process lifetime).
`fill_buf_blocking` makes that explicit; this total version is appealed
to only under hypotheses that guarantee bytes are present, where the two
agree (`read_blocking_agrees`). -/
def fill_buf (s : ReaderState) : ReaderState :=
  if s.buf.isEmpty then { buf := s.avail, avail := [] } else s

/-- `BufReader::fill_buf` over the blocking PTY reader, with the
blocking made explicit: `none` means the call does not return — the
buffer is empty and the underlying blocking read has no bytes to
deliver, so the thread sits inside the read until the shell produces
output (an empty slice would require EOF, unreachable while the PTY
slave is held open in `AppState`). -/
def fill_buf_blocking (s : ReaderState) : Option ReaderState :=
  if s.buf.isEmpty then
    if s.avail.isEmpty then none
    else some { buf := s.avail, avail := [] }
  else some s

/-- `BufReader::consume n`: marks the first `n` buffered bytes consumed. -/
def consume (n : Nat) (s : ReaderState) : ReaderState :=
  { s with buf := s.buf.drop n }

/-- All bytes the reader will ever deliver from this state, in order:
the buffered bytes followed by the currently available ones. -/
def streamOf (s : ReaderState) : List Nat := s.buf ++ s.avail

/-- `async_read_from_pty` (lib.rs lines 80-101), total version: locks
the reader, calls `fill_buf` (an I/O error, modelled by `ioErr`, is
mapped to `Err(())`); if the returned slice is non-empty, decodes it
with `str::from_utf8` — on success returns `Some` of the text and
consumes exactly its byte length, on failure returns `Err(())` and
consumes nothing; an empty slice takes the `Ok(None)` branch. This is
the behaviour of one call given the bytes the fill ends up returning;
the blocking of the fill itself is captured by
`async_read_from_pty_blocking`, which agrees with this function on
every state in which the call returns (`read_blocking_agrees`). -/
def async_read_from_pty (ioErr : Bool) (s : ReaderState) :
    Except Unit (Option (List Nat)) × ReaderState :=
  if ioErr then (Except.error (), s)
  else
    let s1 := fill_buf s
    let data := s1.buf
    if 0 < data.length then
      if utf8Valid data then (Except.ok (some data), consume data.length s1)
      else (Except.error (), s1)
    else (Except.ok none, s1)

/-- `async_read_from_pty` over the blocking PTY reader: `none` means the
call does not return (it is parked inside `fill_buf` waiting for shell
output). The `Ok(None)` branch of the code (lib.rs lines 91-93) is kept
for structural fidelity, but it is only reachable through an empty slice
from `fill_buf`, i.e. never while the call returns at all
(`read_blocking_never_no_data`). -/
def async_read_from_pty_blocking (s : ReaderState) :
    Option (Except Unit (Option (List Nat)) × ReaderState) :=
  match fill_buf_blocking s with
  | none => none
  | some s1 =>
    let data := s1.buf
    if 0 < data.length then
      if utf8Valid data then some (Except.ok (some data), consume data.length s1)
      else some (Except.error (), s1)
    else some (Except.ok none, s1)

/-- State of the writer half of the PTY master: the bytes written so far. -/
structure WriterState where
  written : List Nat
deriving Repr, DecidableEq

/-- `async_write_to_pty` (lib.rs lines 75-77): locks the writer and runs
`write!(writer, "\x7b\x7d", data)`, which appends exactly the chunk's
UTF-8 bytes; a failing underlying write (`writeErr`) is mapped to
`Err(())`. -/
def async_write_to_pty (writeErr : Bool) (data : List Nat) (s : WriterState) :
    Except Unit Unit × WriterState :=
  if writeErr then (Except.error (), s)
  else (Except.ok (), { written := s.written ++ data })

/-- `portable_pty::PtySize`; its `Default` is rows 24, cols 80, pixel
sizes 0. -/
structure PtySize where
  rows : Nat
  cols : Nat
  pixel_width : Nat
  pixel_height : Nat
deriving Repr, DecidableEq

/-- State of the PTY pair: the size the master currently reports. -/
structure PtyState where
  size : PtySize
deriving Repr, DecidableEq

/-- `async_resize_pty` (lib.rs lines 104-116): locks the PTY pair and
calls `master.resize(PtySize \x7b rows, cols, ..Default::default() \x7d)`;
a failing platform resize (`resizeErr`) is mapped to `Err(())` with no
state change. -/
def async_resize_pty (resizeErr : Bool) (rows cols : Nat) (s : PtyState) :
    Except Unit Unit × PtyState :=
  if resizeErr then (Except.error (), s)
  else (Except.ok (), { size := { rows := rows, cols := cols, pixel_width := 0, pixel_height := 0 } })

/-- Environment a `create_shell` call runs in: the contents of `$SHELL`
(non-Windows shell resolution), and whether `slave.spawn_command` fails,
with the message `err.to_string()` would produce. -/
structure ShellEnv where
  shellVar : Option (List Nat)
  spawnErr : Bool
  spawnErrMsg : String
deriving Repr, DecidableEq

/-- The shell-related state: the `has_terminal` flag of `AppState` and a
ghost counter of child processes spawned so far. -/
structure ShellState where
  has_terminal : Bool
  spawned : Nat
deriving Repr, DecidableEq

/-- `async_create_shell` (lib.rs lines 34-72, non-Windows path): if
`has_terminal` is already set, returns `Ok(())` immediately; otherwise
resolves `$SHELL` (failing with a descriptive message when unset),
builds the command (the `TERM=xterm-256color` environment attachment is
not modelled — no claim depends on it), spawns it on the PTY slave
(mapping a spawn error to its message), starts the exit-watcher thread,
and only then stores `has_terminal = true`. This function models one
call running in isolation; the `has_terminal` check and store are not
under any lock, and the interleaving of two concurrent calls is
modelled separately by `raceStep`. -/
def async_create_shell (env : ShellEnv) (s : ShellState) :
    Except String Unit × ShellState :=
  if s.has_terminal then (Except.ok (), s)
  else
    match env.shellVar with
    | none => (Except.error "Could not grab preferred shell from $SHELL", s)
    | some _ =>
      if env.spawnErr then (Except.error env.spawnErrMsg, s)
      else (Except.ok (), { has_terminal := true, spawned := s.spawned + 1 })

/-- Two's-complement interpretation of a `u32` value cast `as i32`. -/
def as_i32 (n : Nat) : Int :=
  let m : Nat := n % 2 ^ 32
  if m < 2 ^ 31 then (m : Int) else (m : Int) - 2 ^ 32

/-- The watcher thread spawned in `async_create_shell` (lib.rs lines
64-67): waits for the child, then calls
`exit(status.exit_code() as i32)` — the code the host process exits
with, as a function of the child's exit code. -/
def watcher_host_exit (child_exit_code : Nat) : Int :=
  as_i32 child_exit_code

/-- Phase of one in-flight `async_create_shell` task: before the
`has_terminal.load(Acquire)` (lib.rs line 35); past that check having
observed `false` (about to resolve `$SHELL`, lock the PTY pair and
spawn); or returned. The load at line 35 and the
`has_terminal.store(true, Release)` at line 69 are not covered by any
lock — the `pty_pair` lock is taken only for the spawn itself — so the
check-to-store window of two tasks may overlap. -/
inductive CreatePhase where
  | start
  | passedCheck
  | done
deriving Repr, DecidableEq

/-- Two concurrent `create-shell` command invocations (tauri runs each
command as its own async task) racing on the shared `AppState`:
the flag, a ghost count of children spawned, and each task's phase. -/
structure RaceState where
  has_terminal : Bool
  spawned : Nat
  phaseA : CreatePhase
  phaseB : CreatePhase
deriving Repr, DecidableEq

/-- Which of the two racing create-shell tasks the scheduler runs next. -/
inductive TaskId where
  | A
  | B
deriving Repr, DecidableEq

/-- One scheduler step of the chosen task, in an environment where
`$SHELL` resolves and spawning succeeds: from `start` the task performs
the unguarded `has_terminal.load` — returning at once if it reads true,
otherwise passing the check; from `passedCheck` it resolves the shell,
acquires the `pty_pair` lock, spawns the child (counted) and then
performs the `has_terminal.store(true)` (the lock serializes the two
spawns but does not cover the earlier check). -/
def raceStep (t : TaskId) (s : RaceState) : RaceState :=
  match t with
  | .A =>
    match s.phaseA with
    | .start => { s with phaseA := if s.has_terminal then .done else .passedCheck }
    | .passedCheck =>
        { s with spawned := s.spawned + 1, has_terminal := true, phaseA := .done }
    | .done => s
  | .B =>
    match s.phaseB with
    | .start => { s with phaseB := if s.has_terminal then .done else .passedCheck }
    | .passedCheck =>
        { s with spawned := s.spawned + 1, has_terminal := true, phaseB := .done }
    | .done => s

/-- Runs a schedule (an interleaving of the two tasks' steps). -/
def runSched (s : RaceState) : List TaskId → RaceState
  | [] => s
  | t :: ts => runSched (raceStep t s) ts

/-- On every state in which the blocking call returns at all (some byte
is buffered or available), it returns exactly what the total model
computes: the total `async_read_from_pty` is the restriction of the
blocking behaviour to the returning states. -/
lemma read_blocking_agrees (s : ReaderState)
    (h : ¬ (s.buf = [] ∧ s.avail = [])) :
    async_read_from_pty_blocking s = some (async_read_from_pty false s) := by
  have hf : fill_buf_blocking s = some (fill_buf s) := by
    obtain ⟨b, a⟩ := s
    cases b with
    | nil =>
      cases a with
      | nil => exact absurd ⟨rfl, rfl⟩ h
      | cons x xs => rfl
    | cons x xs => rfl
  unfold async_read_from_pty_blocking async_read_from_pty
  rw [hf]
  by_cases h1 : 0 < (fill_buf s).buf.length
  · by_cases h2 : utf8Valid (fill_buf s).buf = true
    · simp [h1, h2]
    · simp [h1, h2]
  · simp [h1]

/-- A returning read over the blocking PTY reader never produces the
`Ok(None)` "no data" value: the fill only hands back an empty slice at
EOF, which the blocking model (slave held open) has no returning state
for. -/
lemma read_total_not_no_data (s : ReaderState)
    (hne : (fill_buf s).buf ≠ []) :
    (async_read_from_pty false s).1 ≠ Except.ok none := by
  unfold async_read_from_pty
  have h1 : 0 < (fill_buf s).buf.length := List.length_pos.mpr hne
  by_cases h2 : utf8Valid (fill_buf s).buf = true <;> simp [h1, h2]

lemma read_blocking_never_no_data (s : ReaderState)
    (r : Except Unit (Option (List Nat)) × ReaderState)
    (h : async_read_from_pty_blocking s = some r) :
    r.1 ≠ Except.ok none := by
  by_cases hs : s.buf = [] ∧ s.avail = []
  · simp [async_read_from_pty_blocking, fill_buf_blocking, hs.1, hs.2] at h
  · rw [read_blocking_agrees s hs] at h
    have hr : r = async_read_from_pty false s := by
      injection h with h'
      exact h'.symm
    subst hr
    apply read_total_not_no_data
    rcases hb0 : s.buf with _ | ⟨x, xs⟩
    · rcases ha0 : s.avail with _ | ⟨y, ys⟩
      · exact absurd ⟨hb0, ha0⟩ hs
      · simp [fill_buf, hb0, ha0]
    · simp [fill_buf, hb0]

/-- C4 (at the failing input): in the claimed situation — no byte
buffered, no byte available from the PTY — the read call does not return
at all: it blocks inside `fill_buf` (the underlying PTY reader is a
blocking handle, and an empty slice would require EOF, unreachable while
the slave is held open), instead of returning the promised `Ok(None)`.
Once bytes exist the call returns them — so "no data" is never the
result of a returning call, contradicting the claimed non-blocking
best-effort drain. -/
theorem read_blocks_when_no_data :
    async_read_from_pty_blocking ⟨[], []⟩ = none
    ∧ async_read_from_pty_blocking ⟨[], [0x68, 0x69]⟩ =
        some (Except.ok (some [0x68, 0x69]), ⟨[], []⟩) :=
  ⟨rfl, rfl⟩

/-- C7: `writeToPty` appends exactly the chunk's bytes, verbatim, to the
bytes written to the PTY master when the underlying write succeeds, and
returns the signalled failure `Err(())` exactly when the underlying
write fails. -/
theorem write_verbatim (e : Bool) (data : List Nat) (s : WriterState) :
    (e = false →
      async_write_to_pty e data s = (Except.ok (), { written := s.written ++ data }))
    ∧ ((async_write_to_pty e data s).1 = Except.error () ↔ e = true) := by
  constructor
  · intro h
    subst h
    rfl
  · cases e <;> simp [async_write_to_pty]

/-- Witness for `write_verbatim`: writing the chunk "hi" after a
carriage return yields exactly the concatenated bytes. -/
theorem write_verbatim_witness :
    async_write_to_pty false [0x68, 0x69] ⟨[0x0D]⟩ =
      (Except.ok (), ⟨[0x0D, 0x68, 0x69]⟩) :=
  (write_verbatim false [0x68, 0x69] ⟨[0x0D]⟩).1 rfl

/-- C8: `resizePty` issues a resize with exactly the requested rows and
cols (pixel sizes from `Default`, i.e. 0), so a subsequent query of the
PTY's reported size returns exactly that pair; when the platform resize
call fails it returns `Err(())` with no state change at all. -/
theorem resize_propagation (e : Bool) (r c : Nat) (s : PtyState) :
    (e = false → async_resize_pty e r c s =
      (Except.ok (), { size := { rows := r, cols := c, pixel_width := 0, pixel_height := 0 } }))
    ∧ (e = false →
        ((async_resize_pty e r c s).2.size.rows, (async_resize_pty e r c s).2.size.cols) = (r, c))
    ∧ (e = true → async_resize_pty e r c s = (Except.error (), s)) := by
  refine ⟨?_, ?_, ?_⟩ <;> intro h <;> subst h <;> rfl

/-- Witness for `resize_propagation` at rows 40, cols 120 from the
startup size. -/
theorem resize_propagation_witness :
    ((async_resize_pty false 40 120 ⟨⟨24, 80, 0, 0⟩⟩).2.size.rows,
      (async_resize_pty false 40 120 ⟨⟨24, 80, 0, 0⟩⟩).2.size.cols) = (40, 120) :=
  (resize_propagation false 40 120 ⟨⟨24, 80, 0, 0⟩⟩).2.1 rfl

/-- C6: the background watcher terminates the host process with the
child's exit code: for every child exit code `n` representable in a
non-negative `i32` (which covers all real shell exit statuses), the
host's exit code equals `n`; in particular code 7 yields host exit 7. -/
theorem fatal_exit_propagation (n : Nat) (h : n < 2 ^ 31) :
    watcher_host_exit n = n := by
  have h32 : n % 2 ^ 32 = n := Nat.mod_eq_of_lt (by omega)
  simp only [watcher_host_exit, as_i32, h32, if_pos h]

/-- Witness for `fatal_exit_propagation`: a shell exiting with code 7
makes the host exit with code 7. -/
theorem fatal_exit_propagation_witness : watcher_host_exit 7 = 7 :=
  fatal_exit_propagation 7 (by norm_num)

/-- C5: whenever `createShell` fails — `$SHELL` unresolvable or the
spawn failing — it returns a descriptive error message and the state is
completely unchanged: `has_terminal` remains false and no child was
spawned, so a retry is permitted. -/
theorem create_shell_failure (env : ShellEnv) (s : ShellState)
    (h0 : s.has_terminal = false)
    (hfail : env.shellVar = none ∨ env.spawnErr = true) :
    ∃ msg, async_create_shell env s = (Except.error msg, s) := by
  rcases hfail with h | h
  · exact ⟨"Could not grab preferred shell from $SHELL",
      by simp [async_create_shell, h0, h]⟩
  · cases hv : env.shellVar with
    | none => exact ⟨"Could not grab preferred shell from $SHELL",
        by simp [async_create_shell, h0, hv]⟩
    | some p => exact ⟨env.spawnErrMsg, by simp [async_create_shell, h0, hv, h]⟩

/-- Witness for `create_shell_failure`: with `$SHELL` unset and no prior
shell, the call errors and `has_terminal` stays false with zero spawns. -/
theorem create_shell_failure_witness :
    ∃ msg, async_create_shell ⟨none, false, ""⟩ ⟨false, 0⟩ =
      (Except.error msg, ⟨false, 0⟩) :=
  create_shell_failure ⟨none, false, ""⟩ ⟨false, 0⟩ rfl (Or.inl rfl)

/-- C10: `readFromPty` never returns a present-but-empty chunk: any
successful present result carries at least one byte. -/
theorem read_present_nonempty (ioErr : Bool) (s : ReaderState) (d : List Nat)
    (s' : ReaderState)
    (h : async_read_from_pty ioErr s = (Except.ok (some d), s')) :
    d ≠ [] := by
  cases ioErr with
  | true => simp [async_read_from_pty] at h
  | false =>
    unfold async_read_from_pty at h
    simp only [Bool.false_eq_true, if_false] at h
    by_cases hl : 0 < (fill_buf s).buf.length
    · rw [if_pos hl] at h
      by_cases hv : utf8Valid (fill_buf s).buf = true
      · rw [if_pos hv] at h
        have hd : (fill_buf s).buf = d := by
          have := congrArg Prod.fst h
          simpa using this
        rw [hd] at hl
        exact List.length_pos.mp hl
      · rw [if_neg hv] at h
        simp at h
    · rw [if_neg hl] at h
      simp at h

/-- Witness for `read_present_nonempty`: the chunk "hi" returned from a
two-byte buffer is non-empty. -/
theorem read_present_nonempty_witness : ([0x68, 0x69] : List Nat) ≠ [] :=
  read_present_nonempty false ⟨[0x68, 0x69], []⟩ [0x68, 0x69] ⟨[], []⟩ rfl

/-- C3: when the bytes available at read time decode as valid UTF-8,
`readFromPty` returns exactly those bytes as the decoded text and
consumes exactly them (the buffer is left empty and only later bytes
remain in the stream), so no returned byte can ever be delivered again. -/
theorem read_valid_consumes (s : ReaderState) (d : List Nat)
    (hd : (fill_buf s).buf = d) (hne : d ≠ []) (hv : utf8Valid d = true) :
    async_read_from_pty false s =
      (Except.ok (some d), { buf := [], avail := (fill_buf s).avail })
    ∧ streamOf (async_read_from_pty false s).2 = (streamOf s).drop d.length := by
  have hpos : 0 < d.length := List.length_pos.mpr hne
  have hmain : async_read_from_pty false s =
      (Except.ok (some d), { buf := [], avail := (fill_buf s).avail }) := by
    unfold async_read_from_pty
    simp [consume, hd, hpos, hv, List.drop_length]
  refine ⟨hmain, ?_⟩
  rw [hmain]
  obtain ⟨b, a⟩ := s
  cases b with
  | nil =>
    simp only [fill_buf, List.isEmpty_nil, if_pos] at hd ⊢
    subst hd
    simp [streamOf, List.drop_length]
  | cons x xs =>
    simp only [fill_buf, List.isEmpty_cons, if_neg, Bool.false_eq_true] at hd ⊢
    subst hd
    simp [streamOf, List.drop_left]

/-- Witness for `read_valid_consumes`: reading "hi" from the available
bytes returns it whole and empties the stream. -/
theorem read_valid_consumes_witness :
    async_read_from_pty false ⟨[], [0x68, 0x69]⟩ =
      (Except.ok (some [0x68, 0x69]), ⟨[], []⟩) :=
  (read_valid_consumes ⟨[], [0x68, 0x69]⟩ [0x68, 0x69] rfl (by decide) (by decide)).1

/-- C2 (at the failing input): with only the first byte `0xE4` of the
three-byte UTF-8 encoding of U+4E16 available, the read fails with a
decode error and leaves the byte buffered and unconsumed — but once the
continuation bytes `0xB8 0x96` arrive from the PTY, the subsequent read
fails again with the state completely unchanged (because
`BufReader::fill_buf` only fetches new data when its buffer is empty,
the stale one-byte buffer is re-offered forever), so the full character
is never returned, contradicting the recovery the claim promises. -/
theorem split_codepoint_never_recovers :
    (async_read_from_pty false ⟨[], [0xE4]⟩ = (Except.error (), ⟨[0xE4], []⟩))
    ∧ (async_read_from_pty false ⟨[0xE4], [0xB8, 0x96]⟩ =
        (Except.error (), ⟨[0xE4], [0xB8, 0x96]⟩)) :=
  ⟨rfl, rfl⟩

/-- C1 (counterexample): two sequential create-shell calls do not always
spawn exactly one child — with `$SHELL` unset both calls fail and zero
children are spawned. -/
theorem create_shell_pair_counterexample :
    (async_create_shell ⟨none, false, ""⟩
        (async_create_shell ⟨none, false, ""⟩ ⟨false, 0⟩).2).2.spawned = 0
    ∧ ¬ (async_create_shell ⟨none, false, ""⟩
        (async_create_shell ⟨none, false, ""⟩ ⟨false, 0⟩).2).2.spawned = 1 := by
  decide

/-- C1 (amended): if `has_terminal` is already true the call returns
success immediately with no state change at all; and starting from a
fresh state, a pair of sequential create-shell calls spawns at most one
child, spawning exactly one precisely when at least one of the two calls
returns success. -/
theorem create_shell_idempotent (e1 e2 : ShellEnv) (s t : ShellState)
    (hT : t.has_terminal = true) (h0 : s.has_terminal = false) (hn : s.spawned = 0) :
    async_create_shell e1 t = (Except.ok (), t)
    ∧ (async_create_shell e2 (async_create_shell e1 s).2).2.spawned ≤ 1
    ∧ ((async_create_shell e2 (async_create_shell e1 s).2).2.spawned = 1
        ↔ ((async_create_shell e1 s).1 = Except.ok ()
           ∨ (async_create_shell e2 (async_create_shell e1 s).2).1 = Except.ok ())) := by
  refine ⟨by simp [async_create_shell, hT], ?_, ?_⟩ <;>
  · rcases hv1 : e1.shellVar with _ | p1 <;>
    rcases hv2 : e2.shellVar with _ | p2 <;>
    cases hb1 : e1.spawnErr <;>
    cases hb2 : e2.spawnErr <;>
    simp [async_create_shell, hv1, hv2, hb1, hb2, h0, hn]

/-- Witness for `create_shell_idempotent`: a call on a state that
already has a shell returns success and changes nothing. -/
theorem create_shell_idempotent_witness :
    async_create_shell ⟨some [0x2F], false, ""⟩ ⟨true, 1⟩ = (Except.ok (), ⟨true, 1⟩) :=
  (create_shell_idempotent ⟨some [0x2F], false, ""⟩ ⟨some [0x2F], false, ""⟩
    ⟨false, 0⟩ ⟨true, 1⟩ rfl rfl rfl).1

/-- No micro-step of a racing create task ever takes `has_terminal`
from true back to false (and no other bridge operation touches the flag
at all): the monotonicity half of the lifecycle invariant survives even
the fine-grained interleaving. -/
lemma raceStep_monotonic (t : TaskId) (s : RaceState)
    (hs : s.has_terminal = true) : (raceStep t s).has_terminal = true := by
  cases t with
  | A => cases hp : s.phaseA <;> simp [raceStep, hp, hs]
  | B => cases hp : s.phaseB <;> simp [raceStep, hp, hs]

/-- C9 (at the failing schedule): with the session fresh, `$SHELL`
resolving and spawns succeeding, the interleaving in which both tasks
perform the unguarded `has_terminal.load` before either reaches the
`has_terminal.store` — schedule A-check, B-check, A-spawn, B-spawn —
ends with two shell children spawned in one session lifetime, violating
the at-most-one-spawn half of the claim. -/
theorem concurrent_create_double_spawn :
    (runSched ⟨false, 0, .start, .start⟩ [.A, .B, .A, .B]).spawned = 2
    ∧ ¬ (runSched ⟨false, 0, .start, .start⟩ [.A, .B, .A, .B]).spawned ≤ 1 := by
  decide

